import Mathlib

set_option maxRecDepth 10000

/-!
# Verification of `github_repo_creator.py`

A shallow embedding of the GitHub Repository Creator script
(`src/Project/github_repo_creator.py`) and proofs about its behaviour.

The script is a single-pass orchestration: parse arguments, load a YAML
config, POST to the GitHub repository-creation endpoint, clone the new
repository, and optionally seed a `.gitignore` file (fetch a template or
fall back to built-in ones), committing and pushing it.

Modelling conventions:
* YAML scalar values are `Value` (string / bool / int).
* A loaded configuration is an association list `Config`
  (Python dicts preserve insertion order, as does the list).
* External effects (HTTP, git, filesystem writes, printing) are recorded as
  an explicit `Event` trace; the outcomes of external calls (HTTP status
  codes, git success/failure) are inputs of the model (`World`).
* Python string primitives used by the script (`str.split(sep)`,
  `str.replace('.git', '')`) are embedded as `pySplit` and `replaceDotGit`
  with Python's semantics (split on every separator occurrence; replace
  every non-overlapping occurrence, scanning left to right).
-/

/-- A YAML scalar value as the script sees it. -/
inductive Value where
  | str (s : String)
  | bool (b : Bool)
  | int (n : Int)
deriving DecidableEq, Repr

/-- A loaded configuration: a key-value mapping with insertion order,
as in a Python dict produced by `yaml.safe_load`. -/
abbrev Config := List (String × Value)

/-- Python `str(value)` as used in the script's f-strings. -/
def Value.render : Value → String
  | .str s => s
  | .bool b => if b then "True" else "False"
  | .int n => toString n

/-- Embedding of Python `s.split(sep)` for a single-character separator
(line 117 uses `clone_url.split('/')`): splits at every occurrence of the
separator, keeping empty groups, never returning an empty list. -/
def pySplit (sep : Char) : List Char → List (List Char)
  | [] => [[]]
  | c :: rest =>
    match pySplit sep rest with
    | [] => [[]]
    | g :: gs => if c = sep then [] :: g :: gs else (c :: g) :: gs

/-- Embedding of the Python call `s.replace('.git', '')` (line 117):
deletes every non-overlapping occurrence of the substring `".git"`,
scanning left to right. -/
def replaceDotGit : List Char → List Char
  | '.' :: 'g' :: 'i' :: 't' :: rest => replaceDotGit rest
  | c :: rest => c :: replaceDotGit rest
  | [] => []

/-- `containsSub pat s` holds iff `pat` occurs as a contiguous substring
of `s` (used to state side conditions about `replaceDotGit`). -/
def containsSub (pat : List Char) : List Char → Bool
  | [] => pat.isEmpty
  | c :: rest => pat.isPrefixOf (c :: rest) || containsSub pat rest

/-! ## Config loading (`load_config`, lines 43-61) -/

/-- Result of opening and parsing the YAML config file: the file may be
missing (`FileNotFoundError`), syntactically malformed (`yaml.YAMLError`),
or parse to a key-value mapping. -/
inductive FileResult where
  | notFound
  | yamlError (msg : String)
  | parsed (config : Config)
deriving DecidableEq, Repr

/-- How `load_config` terminates: normally with a config; via `sys.exit(1)`
after printing diagnostics; or with an exception that no handler in the
script catches (the `ValueError` raised for a missing required field is
raised inside the `try` block but matches neither `except` clause). -/
inductive LoadResult where
  | ok (config : Config)
  | exitOne (msgs : List String)
  | uncaughtValueError (msg : String)
deriving DecidableEq, Repr

/-- `required_fields` from line 50. -/
def required_fields : List String := ["github_token", "repo_name"]

/-- Embedding of `load_config` (lines 43-61): validates that each required
field is a key of the parsed mapping, raising `ValueError` at the first
missing one; `FileNotFoundError` and `yaml.YAMLError` print a diagnostic
and `sys.exit(1)`. -/
def load_config (config_path : String) (file : FileResult) : LoadResult :=
  match file with
  | .notFound =>
      .exitOne ["Error: Config file '" ++ config_path ++ "' not found."]
  | .yamlError e =>
      .exitOne ["Error parsing YAML config: " ++ e]
  | .parsed config =>
      match required_fields.find? (fun f => (config.lookup f).isNone) with
      | some f => .uncaughtValueError ("Missing required field in config: " ++ f)
      | none => .ok config

/-! ## Repository creation (`create_github_repo`, lines 64-110) -/

/-- One optional field of the request body: included exactly when its key
is present in the config (the `if 'x' in config:` tests of lines 83-92). -/
def optField (config : Config) (key : String) : List (String × Value) :=
  match config.lookup key with
  | some v => [(key, v)]
  | none => []

/-- Embedding of the `repo_data` dict built in lines 77-92, as an ordered
key-value list: always the `name` and `private` entries (`private` via
`config.get('private', False)`), then each optional field appended only
when its key is present in the config. -/
def build_repo_data (config : Config) : List (String × Value) :=
  [("name", (config.lookup "repo_name").getD (Value.str "")),
   ("private", (config.lookup "private").getD (Value.bool false))]
  ++ optField config "description"
  ++ optField config "homepage"
  ++ optField config "has_wiki"
  ++ optField config "has_issues"
  ++ optField config "auto_init"

/-- Outcome of the `requests.post` call on line 98, an input of the model:
either an HTTP response arrives (with some status code, and for successful
responses a JSON body carrying `html_url` and `clone_url`), or the request
itself raises a `requests.exceptions.RequestException` before `response`
is ever assigned (connection error, DNS failure, ...). -/
inductive HttpOutcome where
  | response (status : Nat) (html_url clone_url : String)
  | noResponse (err : String)
deriving DecidableEq, Repr

/-- How `create_github_repo` terminates: normally with the clone URL;
via `sys.exit(1)` after printing an error; or — when the except block on
lines 103-110 reads `response.status_code` while the local variable
`response` was never assigned (the `requests.post` call itself raised) —
with an `UnboundLocalError` that no handler catches. -/
inductive CreateResult where
  | ok (clone_url : String)
  | exitOne
  | uncaughtUnboundLocal
deriving DecidableEq, Repr

/-- The side effects the script performs, recorded as an explicit trace:
printed lines, HTTP requests (the POST carries its request body), the git
clone / add / commit / push operations, and filesystem writes. -/
inductive Event where
  | printed (line : String)
  | httpPost (url : String) (body : List (String × Value))
  | httpGet (url : String)
  | gitClone (url dir : String)
  | fileWrite (path content : String)
  | gitAdd (path : String)
  | gitCommit (msg : String)
  | gitPush
deriving DecidableEq, Repr

/-- Embedding of `create_github_repo` (lines 64-110).  `raise_for_status`
(line 99) raises `requests.exceptions.HTTPError` exactly for status codes
in [400, 600); the except block then checks `response.status_code == 422`
(the response exists on this path).  When no response was received, the
very same check evaluates the unbound local `response`, so the function
ends in an uncaught `UnboundLocalError`; note that on this path the
dedicated diagnostic of lines 107-109 is never printed.  (The `else`
branch's `if hasattr(e, 'response') and e.response:` on line 108 never
prints the body either, because `requests` defines a response's truth
value as `status_code < 400`, which is false on every path that reaches
the except block with a response.) -/
def create_github_repo (config : Config) (post : HttpOutcome) :
    List Event × CreateResult :=
  let repo_name := Value.render ((config.lookup "repo_name").getD (Value.str ""))
  let pre : List Event :=
    [.printed ("Creating GitHub repository: " ++ repo_name ++ "..."),
     .httpPost "https://api.github.com/user/repos" (build_repo_data config)]
  match post with
  | .noResponse _ =>
      (pre, .uncaughtUnboundLocal)
  | .response status html_url clone_url =>
      if 400 ≤ status ∧ status < 600 then
        if status = 422 then
          (pre ++ [.printed ("Error: Repository '" ++ repo_name ++ "' may already exist.")],
           .exitOne)
        else
          (pre ++ [.printed "Error creating repository: HTTPError"], .exitOne)
      else
        (pre ++ [.printed ("Repository created successfully: " ++ html_url)],
         .ok clone_url)

/-! ## Cloning (`clone_repo`, lines 113-127) -/

/-- The default clone directory derived on line 117:
`clone_url.split('/')[-1].replace('.git', '')`. -/
def default_clone_dir (clone_url : String) : String :=
  ⟨replaceDotGit ((pySplit '/' clone_url.data).getLastD [])⟩

/-- The directory `clone_repo` clones into: the explicit argument when it
is a truthy string (line 115 tests `if not directory:`, so `None` and the
empty string both fall back), otherwise the default derived from the URL. -/
def clone_directory (clone_url : String) (directory : Option String) : String :=
  match directory with
  | none => default_clone_dir clone_url
  | some d => if d = "" then default_clone_dir clone_url else d

/-- Embedding of `clone_repo` (lines 113-127): prints, attempts the clone
(whose success is an input of the model), and on `git.GitCommandError`
prints a diagnostic and `sys.exit(1)` (returning `none` here). -/
def clone_repo (clone_url : String) (directory : Option String) (clone_ok : Bool) :
    List Event × Option String :=
  let dir := clone_directory clone_url directory
  let pre : List Event :=
    [.printed ("Cloning repository to " ++ dir ++ "..."), .gitClone clone_url dir]
  if clone_ok then
    (pre ++ [.printed ("Repository cloned successfully to " ++ dir)], some dir)
  else
    (pre ++ [.printed "Error cloning repository: GitCommandError"], none)

/-! ## Ignore-file seeding (`add_gitignore`, lines 130-248) -/

/-- The built-in Python template (lines 151-180), byte for byte. -/
def python_gitignore : String :=
  "\n# Python\n__pycache__/\n*.py[cod]\n*$py.class\n*.so\n.Python\nenv/\nbuild/\ndevelop-eggs/\ndist/\ndownloads/\neggs/\n.eggs/\nlib/\nlib64/\nparts/\nsdist/\nvar/\n*.egg-info/\n.installed.cfg\n*.egg\n.pytest_cache/\n.coverage\nhtmlcov/\n.tox/\n.venv/\nvenv/\nENV/\n"

/-- The built-in Node template (lines 181-196), byte for byte. -/
def node_gitignore : String :=
  "\n# Node.js\nnode_modules/\nnpm-debug.log\nyarn-debug.log\nyarn-error.log\npackage-lock.json\n.npm\n.node_repl_history\n.env\n.env.test\n.cache\n.next\n.nuxt\ndist/\n"

/-- The built-in Java template (lines 197-216), byte for byte. -/
def java_gitignore : String :=
  "\n# Java\n*.class\n*.log\n*.jar\n*.war\n*.ear\n*.zip\n*.tar.gz\n*.rar\nhs_err_pid*\n.mtj.tmp/\ntarget/\n.idea/\n*.iml\n.classpath\n.project\n.settings/\nbin/\n"

/-- The generic default template (`default_gitignore`, lines 219-230),
byte for byte: IDE and OS artifact patterns. -/
def default_gitignore : String :=
  "\n# IDE files\n.idea/\n.vscode/\n*.swp\n*.swo\n*~\n\n# OS files\n.DS_Store\nThumbs.db\n"

/-- The `basic_gitignores` table of lines 150-217, keyed by identifier. -/
def basic_gitignores : List (String × String) :=
  [("Python", python_gitignore), ("Node", node_gitignore), ("Java", java_gitignore)]

/-- The content chosen on line 232,
`basic_gitignores.get(gitignore_type, default_gitignore)`: a string key is
looked up in the table, any other value (or a missing key) selects the
generic default. -/
def gitignore_fallback (gitignore_type : Value) : String :=
  match gitignore_type with
  | .str s => (basic_gitignores.lookup s).getD default_gitignore
  | _ => default_gitignore

/-- Embedding of `add_gitignore` (lines 130-248).  The template fetch's
status and body are inputs of the model, as is the success of the
add/commit/push block (lines 238-248); a `git.GitCommandError` there is
caught, a diagnostic printed, and the function returns normally.
`os.path.join(repo_dir, '.gitignore')` is modelled as
`repo_dir ++ "/.gitignore"`. -/
def add_gitignore (repo_dir : String) (gitignore_type : Value)
    (fetch_status : Nat) (fetch_text : String) (commit_ok : Bool) : List Event :=
  let gt := gitignore_type.render
  let url := "https://raw.githubusercontent.com/github/gitignore/main/"
               ++ gt ++ ".gitignore"
  let gitignore_path := repo_dir ++ "/.gitignore"
  [Event.printed ("Adding .gitignore file for " ++ gt ++ "..."),
   Event.httpGet url]
  ++ (if fetch_status = 200 then
        [Event.fileWrite gitignore_path fetch_text,
         Event.printed ("Added .gitignore file for " ++ gt)]
      else
        [Event.printed ("Could not find gitignore template for " ++ gt ++ "."),
         Event.printed "Creating a basic .gitignore file instead.",
         Event.fileWrite gitignore_path (gitignore_fallback gitignore_type),
         Event.printed "Created a basic .gitignore file"])
  ++ (if commit_ok then
        [Event.gitAdd ".gitignore",
         Event.gitCommit "Add .gitignore file",
         Event.gitPush,
         Event.printed "Committed and pushed .gitignore file"]
      else
        [Event.printed "Error committing .gitignore: GitCommandError"])

/-! ## The main pipeline (`main`, lines 251-277) -/

/-- The parsed command-line arguments (`parse_arguments`, lines 31-40). -/
structure Args where
  config : String
  directory : Option String
  verbose : Bool
deriving DecidableEq, Repr

/-- The outcomes of the external calls a run makes, inputs of the model:
the config file's content, the repository-creation POST's outcome, the
gitignore template fetch's status and body, and whether the clone and the
commit/push block succeed. -/
structure World where
  file : FileResult
  post : HttpOutcome
  fetch_status : Nat
  fetch_text : String
  clone_ok : Bool
  commit_ok : Bool
deriving DecidableEq, Repr

/-- How a whole run terminates: normal completion, `sys.exit(1)`, or an
exception no handler catches (which also ends the process abnormally, but
with an interpreter traceback rather than the script's own diagnostic). -/
inductive Outcome where
  | completed
  | exitOne
  | uncaughtException (exn : String)
deriving DecidableEq, Repr

/-- The verbose configuration echo of lines 258-264: every key-value pair
is printed, except that the value of `github_token` is replaced by the
fixed mask `'*' * 10`. -/
def verbose_echo (config : Config) : List String :=
  "Configuration loaded:" ::
  config.map (fun kv =>
    if kv.1 = "github_token" then "  github_token: **********"
    else "  " ++ kv.1 ++ ": " ++ kv.2.render)

/-- Embedding of `main` (lines 251-277): load the config, optionally echo
it, create the remote repository, clone it, seed the ignore-file only when
`gitignore_type` is a key of the config, and print the final success
message.  (`os.path.abspath(repo_dir)` in the last print is modelled as
`repo_dir` itself.) -/
def main_run (args : Args) (w : World) : List Event × Outcome :=
  match load_config args.config w.file with
  | .exitOne msgs => (msgs.map Event.printed, .exitOne)
  | .uncaughtValueError msg => ([], .uncaughtException ("ValueError: " ++ msg))
  | .ok config =>
    let vtrace := if args.verbose then (verbose_echo config).map Event.printed else []
    let created := create_github_repo config w.post
    match created.2 with
    | .exitOne => (vtrace ++ created.1, .exitOne)
    | .uncaughtUnboundLocal =>
        (vtrace ++ created.1, .uncaughtException "UnboundLocalError")
    | .ok clone_url =>
      let cloned := clone_repo clone_url args.directory w.clone_ok
      match cloned.2 with
      | none => (vtrace ++ created.1 ++ cloned.1, .exitOne)
      | some repo_dir =>
        let gtrace :=
          match config.lookup "gitignore_type" with
          | some gt => add_gitignore repo_dir gt w.fetch_status w.fetch_text w.commit_ok
          | none => []
        (vtrace ++ created.1 ++ cloned.1 ++ gtrace
           ++ [Event.printed "\nRepository setup completed successfully!",
               Event.printed ("You can now work with your repo at: " ++ repo_dir)],
         .completed)

/-- One step of replaying a trace against the filesystem: a `fileWrite`
to the observed path replaces its content, every other event leaves it
unchanged (the script never deletes or truncates files). -/
def fsStep (path : String) (fs : Option String) (e : Event) : Option String :=
  match e with
  | .fileWrite p c => if p = path then some c else fs
  | _ => fs

/-- The final content of the file at `path` after a trace: the last
`fileWrite` to it. -/
def finalFS (trace : List Event) (path : String) : Option String :=
  trace.foldl (fsStep path) none

/-- Whether an event is a network request (either HTTP verb). -/
def Event.isNetwork : Event → Bool
  | .httpPost _ _ => true
  | .httpGet _ => true
  | _ => false

/-- Whether an event writes a file. -/
def Event.isWrite : Event → Bool
  | .fileWrite _ _ => true
  | _ => false

/-! ## Spec-side definitions

These follow the specification's words, not the source, and exist to be
compared with the corresponding source-derived definitions. -/

/-- Modelled from the spec: "a local directory named after the URL's final
path segment with the `.git` suffix stripped" — strips one trailing
`".git"` and nothing else. -/
def spec_strip_dot_git (seg : List Char) : List Char :=
  if ".git".data.isSuffixOf seg then seg.take (seg.length - 4) else seg

/-- The relation "the two configurations differ only in the value of
`github_token`": same keys in the same order, equal values at every other
key. -/
def sameExceptToken : Config → Config → Bool
  | [], [] => true
  | (k1, v1) :: t1, (k2, v2) :: t2 =>
      decide (k1 = k2) && (decide (k1 = "github_token") || decide (v1 = v2))
        && sameExceptToken t1 t2
  | _, _ => false

example : pySplit '/' "a/b".data = ["a".data, "b".data] := by decide
example : replaceDotGit "a.gitb.git".data = "ab".data := by decide
example : replaceDotGit "my.github.git".data = "myhub".data := by decide
example : containsSub ".git".data "a.gitb".data = true := by decide
example : containsSub ".git".data "hello".data = false := by decide

/-! ## Helper lemmas about `replaceDotGit` -/

lemma replaceDotGit_cons (c : Char) (rest : List Char)
    (h : (".git".data.isPrefixOf (c :: rest)) = false) :
    replaceDotGit (c :: rest) = c :: replaceDotGit rest := by
  rw [replaceDotGit.eq_def]
  split
  · rename_i r heq
    rw [show (c :: rest) = ('.' :: 'g' :: 'i' :: 't' :: r) from heq] at h
    simp [List.isPrefixOf] at h
  · rename_i c' rest' heq h1
    cases h1
    rfl
  · rename_i heq h1
    cases h1

lemma dotGit_not_prefix_append (c : Char) (s : List Char)
    (h : (".git".data.isPrefixOf (c :: s)) = false) :
    (".git".data.isPrefixOf ((c :: s) ++ ".git".data)) = false := by
  match s with
  | [] => simp [List.isPrefixOf]
  | [b] => simp [List.isPrefixOf]
  | [b, d] => simp [List.isPrefixOf]
  | b :: d :: e :: t =>
    simp [List.isPrefixOf] at h ⊢
    intro h1 h2 h3
    exact h h1 h2 h3

lemma containsSub_cons_false {pat : List Char} {c : Char} {s : List Char}
    (h : containsSub pat (c :: s) = false) :
    (pat.isPrefixOf (c :: s)) = false ∧ containsSub pat s = false := by
  simpa [containsSub] using h

lemma replaceDotGit_append_dotGit (stem : List Char)
    (h : containsSub ".git".data stem = false) :
    replaceDotGit (stem ++ ".git".data) = stem := by
  induction stem with
  | nil => rfl
  | cons c s ih =>
    obtain ⟨h1, h2⟩ := containsSub_cons_false h
    rw [List.cons_append, replaceDotGit_cons _ _ (by
      have := dotGit_not_prefix_append c s h1
      simpa using this)]
    rw [ih h2]

lemma replaceDotGit_no_occurrence (s : List Char)
    (h : containsSub ".git".data s = false) :
    replaceDotGit s = s := by
  induction s with
  | nil => rfl
  | cons c t ih =>
    obtain ⟨h1, h2⟩ := containsSub_cons_false h
    rw [replaceDotGit_cons c t h1]
    rw [ih h2]

/-! ## Claim C2 -/

/-- C2, corrected: the claim is false as stated — line 117 removes every
occurrence of `".git"` from the URL's final path segment, not only a
trailing suffix.  At the clone URL `https://github.com/u/a.gitb.git` the
final segment is `a.gitb.git`; stripping only the trailing suffix gives
`a.gitb`, but `clone_repo` derives the directory `ab`. -/
theorem clone_dir_counterexample :
    clone_directory "https://github.com/u/a.gitb.git" none = "ab" ∧
    spec_strip_dot_git ((pySplit '/' "https://github.com/u/a.gitb.git".data).getLastD [])
      = "a.gitb".data ∧
    clone_directory "https://github.com/u/a.gitb.git" none
      ≠ ⟨spec_strip_dot_git ((pySplit '/' "https://github.com/u/a.gitb.git".data).getLastD [])⟩ := by
  decide

/-- C2, amended: with no explicit directory, `clone_repo` clones into the
URL's final path segment with every occurrence of `".git"` removed; this
coincides with stripping a trailing `".git"` suffix exactly when the
stripped segment contains no further occurrence of `".git"`. -/
theorem clone_dir_is_stripped_last_segment (clone_url : String)
    (h : containsSub ".git".data
        (spec_strip_dot_git ((pySplit '/' clone_url.data).getLastD [])) = false) :
    clone_directory clone_url none
      = ⟨spec_strip_dot_git ((pySplit '/' clone_url.data).getLastD [])⟩ := by
  show String.mk (replaceDotGit ((pySplit '/' clone_url.data).getLastD []))
      = String.mk (spec_strip_dot_git ((pySplit '/' clone_url.data).getLastD []))
  set seg := (pySplit '/' clone_url.data).getLastD [] with hseg
  congr 1
  unfold spec_strip_dot_git at h ⊢
  by_cases hsuf : (".git".data.isSuffixOf seg) = true
  · rw [if_pos hsuf] at h ⊢
    rw [List.isSuffixOf_iff_suffix] at hsuf
    obtain ⟨t, ht⟩ := hsuf
    rw [← ht, List.length_append, show (".git".data.length = 4) from rfl,
        Nat.add_sub_cancel, List.take_left] at h ⊢
    exact replaceDotGit_append_dotGit t h
  · rw [if_neg hsuf] at h ⊢
    exact replaceDotGit_no_occurrence seg h

/-- Witness for C2's amended theorem at the concrete URL
`https://github.com/octocat/hello.git` (directory `hello`). -/
theorem clone_dir_is_stripped_last_segment_witness :
    clone_directory "https://github.com/octocat/hello.git" none
      = ⟨spec_strip_dot_git
          ((pySplit '/' "https://github.com/octocat/hello.git".data).getLastD [])⟩ :=
  clone_dir_is_stripped_last_segment "https://github.com/octocat/hello.git" (by decide)

/-! ## Claim C1 -/

lemma lookup_none_of_only_required (config : Config) (k : String)
    (hk : ∀ p ∈ config, p.1 = "github_token" ∨ p.1 = "repo_name")
    (h1 : k ≠ "github_token") (h2 : k ≠ "repo_name") :
    config.lookup k = none := by
  induction config with
  | nil => rfl
  | cons p t ih =>
    obtain ⟨a, b⟩ := p
    have ha := hk (a, b) (List.mem_cons_self _ _)
    have hne : (k == a) = false := by
      rcases ha with h | h <;> simp_all
    simp only [List.lookup, hne]
    exact ih (fun q hq => hk q (List.mem_cons_of_mem _ hq))

/-- C1, counterexample: the claim is false as stated — for a config
holding only the required keys, the request body still carries the
optional `private` key (line 79 always inserts it, defaulted to false):
its keys are exactly `name` and `private`. -/
theorem repo_data_counterexample :
    (build_repo_data
        [("github_token", Value.str "token"), ("repo_name", Value.str "demo")]).lookup "private"
      = some (Value.bool false) ∧
    (build_repo_data
        [("github_token", Value.str "token"), ("repo_name", Value.str "demo")]).map Prod.fst
      = ["name", "private"] := by decide

/-- C1, amended: for every configuration containing only the required keys
`github_token` and `repo_name`, the request body built by
`create_github_repo` is exactly `name` followed by `private` (sent as
false); it contains no `description`, `homepage`, `has_wiki`,
`has_issues`, or `auto_init` field. -/
theorem repo_data_only_required (config : Config) (v : Value)
    (hk : ∀ p ∈ config, p.1 = "github_token" ∨ p.1 = "repo_name")
    (hr : config.lookup "repo_name" = some v) :
    build_repo_data config = [("name", v), ("private", Value.bool false)] := by
  have hne : ∀ k, k ≠ "github_token" → k ≠ "repo_name" → config.lookup k = none :=
    fun k h1 h2 => lookup_none_of_only_required config k hk h1 h2
  simp only [build_repo_data, optField, hr,
    hne "private" (by decide) (by decide),
    hne "description" (by decide) (by decide),
    hne "homepage" (by decide) (by decide),
    hne "has_wiki" (by decide) (by decide),
    hne "has_issues" (by decide) (by decide),
    hne "auto_init" (by decide) (by decide)]
  rfl

/-- Witness for C1's amended theorem at a concrete two-key config. -/
theorem repo_data_only_required_witness :
    build_repo_data [("github_token", Value.str "token"), ("repo_name", Value.str "demo")]
      = [("name", Value.str "demo"), ("private", Value.bool false)] :=
  repo_data_only_required _ (Value.str "demo") (by decide) (by decide)

/-! ## Claim C3 -/

/-- C3, code bug: when the `requests.post` call raises before any response
is received (e.g. a DNS failure), the except block of lines 103-110
evaluates `response.status_code` with the local `response` unbound, so
`create_github_repo` ends in an uncaught `UnboundLocalError` instead of
printing a diagnostic and exiting; the whole run ends in that exception
rather than in `sys.exit(1)`. -/
theorem create_repo_no_response_unbound_local :
    (create_github_repo
        [("github_token", Value.str "token"), ("repo_name", Value.str "demo")]
        (HttpOutcome.noResponse "ConnectionError")).2
      = CreateResult.uncaughtUnboundLocal ∧
    (main_run ⟨"github_config.yml", none, false⟩
        ⟨FileResult.parsed [("github_token", Value.str "token"), ("repo_name", Value.str "demo")],
         HttpOutcome.noResponse "ConnectionError", 200, "", true, true⟩).2
      = Outcome.uncaughtException "UnboundLocalError" := by decide

/-! ## Claim C5 -/

/-- C5, confirmed: when the config file parses to a mapping missing
`repo_name` (or `github_token`), the run fails with the `ValueError`
raised by the loader's validation, and its trace is empty — in particular
no network request is ever issued. -/
theorem load_missing_required_field (args : Args) (w : World) (config : Config)
    (hfile : w.file = FileResult.parsed config)
    (hmiss : config.lookup "github_token" = none ∨ config.lookup "repo_name" = none) :
    (∃ f, f ∈ required_fields ∧
        main_run args w
          = ([], Outcome.uncaughtException
                   ("ValueError: Missing required field in config: " ++ f))) ∧
    ∀ e ∈ (main_run args w).1, e.isNetwork = false := by
  cases htok : config.lookup "github_token" with
  | none =>
    have hrun : main_run args w
        = ([], Outcome.uncaughtException
                 ("ValueError: Missing required field in config: " ++ "github_token")) := by
      simp [main_run, load_config, hfile, required_fields, List.find?, htok]
    refine ⟨⟨"github_token", by simp [required_fields], hrun⟩, ?_⟩
    rw [hrun]
    intro e he
    cases he
  | some tok =>
    rcases hmiss with h | h
    · rw [htok] at h
      cases h
    · have hrun : main_run args w
          = ([], Outcome.uncaughtException
                   ("ValueError: Missing required field in config: " ++ "repo_name")) := by
        simp [main_run, load_config, hfile, required_fields, List.find?, htok, h]
      refine ⟨⟨"repo_name", by simp [required_fields], hrun⟩, ?_⟩
      rw [hrun]
      intro e he
      cases he

/-- Witness for C5 at a concrete config parsing to
`{github_token: token}` (no `repo_name`). -/
theorem load_missing_required_field_witness :
    (∃ f, f ∈ required_fields ∧
        main_run ⟨"github_config.yml", none, false⟩
            ⟨FileResult.parsed [("github_token", Value.str "token")],
             HttpOutcome.response 201 "h" "u", 200, "", true, true⟩
          = ([], Outcome.uncaughtException
                   ("ValueError: Missing required field in config: " ++ f))) ∧
    ∀ e ∈ (main_run ⟨"github_config.yml", none, false⟩
            ⟨FileResult.parsed [("github_token", Value.str "token")],
             HttpOutcome.response 201 "h" "u", 200, "", true, true⟩).1,
      e.isNetwork = false :=
  load_missing_required_field _ _ [("github_token", Value.str "token")] rfl (Or.inr rfl)

/-! ## Claim C10 -/

/-- C10, confirmed: the verbose echo prints a fixed ten-asterisk mask for
`github_token`, so any two configurations that differ only in the token's
value produce identical verbose output. -/
theorem verbose_echo_token_independent (c1 c2 : Config)
    (h : sameExceptToken c1 c2 = true) :
    verbose_echo c1 = verbose_echo c2 := by
  induction c1 generalizing c2 with
  | nil =>
    cases c2 with
    | nil => rfl
    | cons q t2 => simp [sameExceptToken] at h
  | cons p t1 ih =>
    cases c2 with
    | nil =>
      obtain ⟨k1, v1⟩ := p
      simp [sameExceptToken] at h
    | cons q t2 =>
      obtain ⟨k1, v1⟩ := p
      obtain ⟨k2, v2⟩ := q
      simp only [sameExceptToken, Bool.and_eq_true, Bool.or_eq_true,
        decide_eq_true_eq] at h
      obtain ⟨⟨hk, hv⟩, ht⟩ := h
      subst hk
      have htail := ih t2 ht
      simp only [verbose_echo, List.map_cons, List.cons.injEq, true_and] at htail ⊢
      refine ⟨?_, htail⟩
      rcases hv with h | h
      · subst h
        simp
      · subst h
        rfl

/-- Witness for C10: two concrete configs differing only in the token. -/
theorem verbose_echo_token_independent_witness :
    verbose_echo [("github_token", Value.str "secret-A"), ("repo_name", Value.str "demo")]
      = verbose_echo [("github_token", Value.str "secret-B"), ("repo_name", Value.str "demo")] :=
  verbose_echo_token_independent _ _ (by decide)

/-! ## Helper lemmas about traces and the filesystem replay -/

lemma fsStep_not_write (p : String) (acc : Option String) (e : Event)
    (h : e.isWrite = false) : fsStep p acc e = acc := by
  cases e <;> first | rfl | simp [Event.isWrite] at h

lemma foldl_fsStep_no_write (p : String) (l : List Event) (acc : Option String)
    (h : ∀ e ∈ l, e.isWrite = false) : l.foldl (fsStep p) acc = acc := by
  induction l generalizing acc with
  | nil => rfl
  | cons e t ih =>
    rw [List.foldl_cons, fsStep_not_write p acc e (h e (List.mem_cons_self _ _))]
    exact ih acc (fun x hx => h x (List.mem_cons_of_mem _ hx))

lemma create_github_repo_success (config : Config) (rn : Value) (st : Nat) (hu cu : String)
    (hrn : config.lookup "repo_name" = some rn) (hst : st < 400) :
    create_github_repo config (HttpOutcome.response st hu cu)
      = ([Event.printed ("Creating GitHub repository: " ++ rn.render ++ "..."),
          Event.httpPost "https://api.github.com/user/repos" (build_repo_data config),
          Event.printed ("Repository created successfully: " ++ hu)],
         CreateResult.ok cu) := by
  have hno : ¬(400 ≤ st ∧ st < 600) := by omega
  simp [create_github_repo, hrn, hno]

/-- The full trace of a run whose config loads with both required fields,
whose creation request succeeds, and whose clone succeeds: used by the
claims about the ignore-file step. -/
lemma main_run_success_trace (args : Args) (w : World) (config : Config)
    (tok rn : Value) (st : Nat) (hu cu : String) (gto : Option Value)
    (hfile : w.file = FileResult.parsed config)
    (htok : config.lookup "github_token" = some tok)
    (hrn : config.lookup "repo_name" = some rn)
    (hgt : config.lookup "gitignore_type" = gto)
    (hpost : w.post = HttpOutcome.response st hu cu)
    (hst : st < 400)
    (hclone : w.clone_ok = true) :
    main_run args w
      = ((if args.verbose then (verbose_echo config).map Event.printed else [])
         ++ [Event.printed ("Creating GitHub repository: " ++ rn.render ++ "..."),
             Event.httpPost "https://api.github.com/user/repos" (build_repo_data config),
             Event.printed ("Repository created successfully: " ++ hu)]
         ++ [Event.printed ("Cloning repository to " ++ clone_directory cu args.directory ++ "..."),
             Event.gitClone cu (clone_directory cu args.directory),
             Event.printed ("Repository cloned successfully to " ++ clone_directory cu args.directory)]
         ++ (gto.elim []
              (fun gt => add_gitignore (clone_directory cu args.directory) gt
                           w.fetch_status w.fetch_text w.commit_ok))
         ++ [Event.printed "\nRepository setup completed successfully!",
             Event.printed ("You can now work with your repo at: "
                              ++ clone_directory cu args.directory)],
         Outcome.completed) := by
  have hload : load_config args.config w.file = LoadResult.ok config := by
    simp [load_config, hfile, required_fields, List.find?, htok, hrn]
  have hcr := create_github_repo_success config rn st hu cu hrn hst
  rw [← hpost] at hcr
  cases gto with
  | none => simp [main_run, hload, hcr, clone_repo, hclone, hgt]
  | some gt => simp [main_run, hload, hcr, clone_repo, hclone, hgt]

/-! ## Claim C4 -/

/-- C4, confirmed: when the repository-creation request receives a 422
response, the run prints the "may already exist" message, exits with
status 1, and its trace contains no clone operation. -/
theorem repo_422_exits_before_clone (args : Args) (w : World) (config : Config)
    (tok rn : Value) (hu cu : String)
    (hfile : w.file = FileResult.parsed config)
    (htok : config.lookup "github_token" = some tok)
    (hrn : config.lookup "repo_name" = some rn)
    (hpost : w.post = HttpOutcome.response 422 hu cu) :
    (main_run args w).2 = Outcome.exitOne ∧
    Event.printed ("Error: Repository '" ++ rn.render ++ "' may already exist.")
      ∈ (main_run args w).1 ∧
    ∀ u d, Event.gitClone u d ∉ (main_run args w).1 := by
  have hload : load_config args.config w.file = LoadResult.ok config := by
    simp [load_config, hfile, required_fields, List.find?, htok, hrn]
  have hcreate : create_github_repo config w.post
      = ([Event.printed ("Creating GitHub repository: " ++ rn.render ++ "..."),
          Event.httpPost "https://api.github.com/user/repos" (build_repo_data config),
          Event.printed ("Error: Repository '" ++ rn.render ++ "' may already exist.")],
         CreateResult.exitOne) := by
    simp [create_github_repo, hpost, hrn]
  have hrun : main_run args w
      = ((if args.verbose then (verbose_echo config).map Event.printed else [])
          ++ [Event.printed ("Creating GitHub repository: " ++ rn.render ++ "..."),
              Event.httpPost "https://api.github.com/user/repos" (build_repo_data config),
              Event.printed ("Error: Repository '" ++ rn.render ++ "' may already exist.")],
         Outcome.exitOne) := by
    simp [main_run, hload, hcreate]
  refine ⟨by rw [hrun], by rw [hrun]; simp, ?_⟩
  intro u d hmem
  rw [hrun] at hmem
  cases hv : args.verbose <;> simp [hv] at hmem

/-- Witness for C4 at a concrete config and a 422 response. -/
theorem repo_422_exits_before_clone_witness :
    (main_run ⟨"github_config.yml", none, false⟩
        ⟨FileResult.parsed [("github_token", Value.str "token"), ("repo_name", Value.str "demo")],
         HttpOutcome.response 422 "h" "u", 200, "", true, true⟩).2 = Outcome.exitOne ∧
    Event.printed ("Error: Repository '" ++ (Value.str "demo").render ++ "' may already exist.")
      ∈ (main_run ⟨"github_config.yml", none, false⟩
          ⟨FileResult.parsed [("github_token", Value.str "token"), ("repo_name", Value.str "demo")],
           HttpOutcome.response 422 "h" "u", 200, "", true, true⟩).1 ∧
    ∀ u d, Event.gitClone u d
      ∉ (main_run ⟨"github_config.yml", none, false⟩
          ⟨FileResult.parsed [("github_token", Value.str "token"), ("repo_name", Value.str "demo")],
           HttpOutcome.response 422 "h" "u", 200, "", true, true⟩).1 :=
  repo_422_exits_before_clone _ _
    [("github_token", Value.str "token"), ("repo_name", Value.str "demo")]
    (Value.str "token") (Value.str "demo") "h" "u" rfl (by decide) (by decide) rfl

/-! ## Claim C6 -/

/-- C6, confirmed: for an ignore-file identifier that is no key of the
built-in table, when the remote template fetch does not return 200,
`add_gitignore` writes exactly the generic default template (IDE and OS
artifact patterns) to `.gitignore` — and that is the only file write it
performs. -/
theorem gitignore_unknown_type_default (repo_dir s : String) (status : Nat)
    (text : String) (commit_ok : Bool)
    (hs : basic_gitignores.lookup s = none)
    (hstatus : status ≠ 200) :
    Event.fileWrite (repo_dir ++ "/.gitignore") default_gitignore
      ∈ add_gitignore repo_dir (Value.str s) status text commit_ok ∧
    ∀ p c,
      Event.fileWrite p c ∈ add_gitignore repo_dir (Value.str s) status text commit_ok →
      p = repo_dir ++ "/.gitignore" ∧ c = default_gitignore := by
  have hfb : gitignore_fallback (Value.str s) = default_gitignore := by
    simp [gitignore_fallback, hs]
  constructor
  · simp [add_gitignore, hstatus, hfb, Value.render]
  · intro p c hmem
    cases commit_ok <;> simp [add_gitignore, hstatus, hfb, Value.render] at hmem <;>
      exact ⟨hmem.1, hmem.2⟩

/-- Witness for C6 at the identifier `Rust` (no built-in) and a 404
fetch. -/
theorem gitignore_unknown_type_default_witness :
    Event.fileWrite ("demo" ++ "/.gitignore") default_gitignore
      ∈ add_gitignore "demo" (Value.str "Rust") 404 "" true ∧
    ∀ p c,
      Event.fileWrite p c ∈ add_gitignore "demo" (Value.str "Rust") 404 "" true →
      p = "demo" ++ "/.gitignore" ∧ c = default_gitignore :=
  gitignore_unknown_type_default "demo" "Rust" 404 "" true (by decide) (by decide)

/-! ## Claim C7 -/

/-- C7, confirmed: a fully successful run with `gitignore_type: Python`
ends with the local `.gitignore` holding the fetched template when the
fetch returned 200 and the built-in Python template otherwise, and its
trace contains a commit with message "Add .gitignore file". -/
theorem python_run_gitignore_and_commit (args : Args) (w : World) (config : Config)
    (tok rn : Value) (st : Nat) (hu cu : String)
    (hfile : w.file = FileResult.parsed config)
    (htok : config.lookup "github_token" = some tok)
    (hrn : config.lookup "repo_name" = some rn)
    (hgt : config.lookup "gitignore_type" = some (Value.str "Python"))
    (hpost : w.post = HttpOutcome.response st hu cu)
    (hst : st < 400)
    (hclone : w.clone_ok = true)
    (hcommit : w.commit_ok = true) :
    (main_run args w).2 = Outcome.completed ∧
    finalFS (main_run args w).1 (clone_directory cu args.directory ++ "/.gitignore")
      = some (if w.fetch_status = 200 then w.fetch_text else python_gitignore) ∧
    Event.gitCommit "Add .gitignore file" ∈ (main_run args w).1 := by
  have hrun := main_run_success_trace args w config tok rn st hu cu
    (some (Value.str "Python")) hfile htok hrn hgt hpost hst hclone
  rw [hrun]
  have hV : ∀ acc : Option String,
      ((verbose_echo config).map Event.printed).foldl
        (fsStep (clone_directory cu args.directory ++ "/.gitignore")) acc = acc := by
    intro acc
    refine foldl_fsStep_no_write _ _ acc ?_
    intro e he
    simp only [List.mem_map] at he
    obtain ⟨x, _, hx⟩ := he
    rw [← hx]
    rfl
  refine ⟨rfl, ?_, ?_⟩
  · by_cases hfs : w.fetch_status = 200 <;>
    · simp only [finalFS, List.foldl_append, Option.elim]
      have h1 : (if args.verbose then (verbose_echo config).map Event.printed
            else []).foldl (fsStep (clone_directory cu args.directory ++ "/.gitignore")) none
          = none := by
        cases hv : args.verbose <;> simp [hV]
      rw [h1]
      simp [add_gitignore, hfs, fsStep, gitignore_fallback, basic_gitignores, hcommit]
  · by_cases hfs : w.fetch_status = 200 <;>
      simp [add_gitignore, hfs, hcommit]

/-- Witness for C7 at a concrete fully successful run (fetch 404, so the
built-in Python template is written). -/
theorem python_run_gitignore_and_commit_witness :
    (main_run ⟨"github_config.yml", none, false⟩
        ⟨FileResult.parsed
            [("github_token", Value.str "token"), ("repo_name", Value.str "demo"),
             ("gitignore_type", Value.str "Python")],
         HttpOutcome.response 201 "h" "https://github.com/u/demo.git",
         404, "", true, true⟩).2 = Outcome.completed ∧
    finalFS (main_run ⟨"github_config.yml", none, false⟩
        ⟨FileResult.parsed
            [("github_token", Value.str "token"), ("repo_name", Value.str "demo"),
             ("gitignore_type", Value.str "Python")],
         HttpOutcome.response 201 "h" "https://github.com/u/demo.git",
         404, "", true, true⟩).1
        (clone_directory "https://github.com/u/demo.git" none ++ "/.gitignore")
      = some (if (404 : Nat) = 200 then "" else python_gitignore) ∧
    Event.gitCommit "Add .gitignore file"
      ∈ (main_run ⟨"github_config.yml", none, false⟩
          ⟨FileResult.parsed
              [("github_token", Value.str "token"), ("repo_name", Value.str "demo"),
               ("gitignore_type", Value.str "Python")],
           HttpOutcome.response 201 "h" "https://github.com/u/demo.git",
           404, "", true, true⟩).1 :=
  python_run_gitignore_and_commit _ _
    [("github_token", Value.str "token"), ("repo_name", Value.str "demo"),
     ("gitignore_type", Value.str "Python")]
    (Value.str "token") (Value.str "demo") 201 "h" "https://github.com/u/demo.git"
    rfl (by decide) (by decide) (by decide) rfl (by decide) rfl rfl

/-! ## Claim C8 -/

/-- C8, confirmed: when the commit/push of the ignore-file fails, the run
prints the commit diagnostic, still completes (the final success message
is printed, the outcome is normal completion), and the written
`.gitignore` remains on disk with its chosen content — the failure does
not roll the write back. -/
theorem gitignore_commit_failure_nonfatal (args : Args) (w : World) (config : Config)
    (tok rn gt : Value) (st : Nat) (hu cu : String)
    (hfile : w.file = FileResult.parsed config)
    (htok : config.lookup "github_token" = some tok)
    (hrn : config.lookup "repo_name" = some rn)
    (hgt : config.lookup "gitignore_type" = some gt)
    (hpost : w.post = HttpOutcome.response st hu cu)
    (hst : st < 400)
    (hclone : w.clone_ok = true)
    (hcommit : w.commit_ok = false) :
    (main_run args w).2 = Outcome.completed ∧
    Event.printed "Error committing .gitignore: GitCommandError" ∈ (main_run args w).1 ∧
    Event.printed "\nRepository setup completed successfully!" ∈ (main_run args w).1 ∧
    finalFS (main_run args w).1 (clone_directory cu args.directory ++ "/.gitignore")
      = some (if w.fetch_status = 200 then w.fetch_text else gitignore_fallback gt) := by
  have hrun := main_run_success_trace args w config tok rn st hu cu (some gt)
    hfile htok hrn hgt hpost hst hclone
  rw [hrun]
  have hV : ∀ acc : Option String,
      ((verbose_echo config).map Event.printed).foldl
        (fsStep (clone_directory cu args.directory ++ "/.gitignore")) acc = acc := by
    intro acc
    refine foldl_fsStep_no_write _ _ acc ?_
    intro e he
    simp only [List.mem_map] at he
    obtain ⟨x, _, hx⟩ := he
    rw [← hx]
    rfl
  refine ⟨rfl, ?_, ?_, ?_⟩
  · by_cases hfs : w.fetch_status = 200 <;> simp [add_gitignore, hfs, hcommit]
  · simp
  · by_cases hfs : w.fetch_status = 200 <;>
    · simp only [finalFS, List.foldl_append, Option.elim]
      have h1 : (if args.verbose then (verbose_echo config).map Event.printed
            else []).foldl (fsStep (clone_directory cu args.directory ++ "/.gitignore")) none
          = none := by
        cases hv : args.verbose <;> simp [hV]
      rw [h1]
      simp [add_gitignore, hfs, fsStep, hcommit]

/-- Witness for C8 at a concrete run whose commit/push fails (fetch 404,
identifier `Python`). -/
theorem gitignore_commit_failure_nonfatal_witness :
    (main_run ⟨"github_config.yml", none, false⟩
        ⟨FileResult.parsed
            [("github_token", Value.str "token"), ("repo_name", Value.str "demo"),
             ("gitignore_type", Value.str "Python")],
         HttpOutcome.response 201 "h" "https://github.com/u/demo.git",
         404, "", true, false⟩).2 = Outcome.completed ∧
    Event.printed "Error committing .gitignore: GitCommandError"
      ∈ (main_run ⟨"github_config.yml", none, false⟩
          ⟨FileResult.parsed
              [("github_token", Value.str "token"), ("repo_name", Value.str "demo"),
               ("gitignore_type", Value.str "Python")],
           HttpOutcome.response 201 "h" "https://github.com/u/demo.git",
           404, "", true, false⟩).1 ∧
    Event.printed "\nRepository setup completed successfully!"
      ∈ (main_run ⟨"github_config.yml", none, false⟩
          ⟨FileResult.parsed
              [("github_token", Value.str "token"), ("repo_name", Value.str "demo"),
               ("gitignore_type", Value.str "Python")],
           HttpOutcome.response 201 "h" "https://github.com/u/demo.git",
           404, "", true, false⟩).1 ∧
    finalFS (main_run ⟨"github_config.yml", none, false⟩
        ⟨FileResult.parsed
            [("github_token", Value.str "token"), ("repo_name", Value.str "demo"),
             ("gitignore_type", Value.str "Python")],
         HttpOutcome.response 201 "h" "https://github.com/u/demo.git",
         404, "", true, false⟩).1
        (clone_directory "https://github.com/u/demo.git" none ++ "/.gitignore")
      = some (if (404 : Nat) = 200 then ""
              else gitignore_fallback (Value.str "Python")) :=
  gitignore_commit_failure_nonfatal _ _
    [("github_token", Value.str "token"), ("repo_name", Value.str "demo"),
     ("gitignore_type", Value.str "Python")]
    (Value.str "token") (Value.str "demo") (Value.str "Python")
    201 "h" "https://github.com/u/demo.git"
    rfl (by decide) (by decide) (by decide) rfl (by decide) rfl rfl

/-! ## Claim C9 -/

/-- C9, confirmed: when the config has no `gitignore_type` key, the
ignore-file step is skipped entirely — the run completes normally after
the clone, and its trace contains no file write, no template fetch
(`httpGet`), no commit and no push. -/
theorem no_gitignore_type_skips_seeding (args : Args) (w : World) (config : Config)
    (tok rn : Value) (st : Nat) (hu cu : String)
    (hfile : w.file = FileResult.parsed config)
    (htok : config.lookup "github_token" = some tok)
    (hrn : config.lookup "repo_name" = some rn)
    (hgt : config.lookup "gitignore_type" = none)
    (hpost : w.post = HttpOutcome.response st hu cu)
    (hst : st < 400)
    (hclone : w.clone_ok = true) :
    (main_run args w).2 = Outcome.completed ∧
    (∀ p c, Event.fileWrite p c ∉ (main_run args w).1) ∧
    (∀ u, Event.httpGet u ∉ (main_run args w).1) ∧
    (∀ m, Event.gitCommit m ∉ (main_run args w).1) ∧
    Event.gitPush ∉ (main_run args w).1 := by
  have hrun := main_run_success_trace args w config tok rn st hu cu none
    hfile htok hrn hgt hpost hst hclone
  rw [hrun]
  refine ⟨rfl, ?_, ?_, ?_, ?_⟩
  · intro p c hmem
    cases hv : args.verbose <;> simp [hv] at hmem
  · intro u hmem
    cases hv : args.verbose <;> simp [hv] at hmem
  · intro m hmem
    cases hv : args.verbose <;> simp [hv] at hmem
  · intro hmem
    cases hv : args.verbose <;> simp [hv] at hmem

/-- Witness for C9 at a concrete run whose config has only the two
required keys. -/
theorem no_gitignore_type_skips_seeding_witness :
    (main_run ⟨"github_config.yml", none, false⟩
        ⟨FileResult.parsed [("github_token", Value.str "token"), ("repo_name", Value.str "demo")],
         HttpOutcome.response 201 "h" "https://github.com/u/demo.git",
         200, "", true, true⟩).2 = Outcome.completed ∧
    (∀ p c, Event.fileWrite p c
      ∉ (main_run ⟨"github_config.yml", none, false⟩
          ⟨FileResult.parsed [("github_token", Value.str "token"), ("repo_name", Value.str "demo")],
           HttpOutcome.response 201 "h" "https://github.com/u/demo.git",
           200, "", true, true⟩).1) ∧
    (∀ u, Event.httpGet u
      ∉ (main_run ⟨"github_config.yml", none, false⟩
          ⟨FileResult.parsed [("github_token", Value.str "token"), ("repo_name", Value.str "demo")],
           HttpOutcome.response 201 "h" "https://github.com/u/demo.git",
           200, "", true, true⟩).1) ∧
    (∀ m, Event.gitCommit m
      ∉ (main_run ⟨"github_config.yml", none, false⟩
          ⟨FileResult.parsed [("github_token", Value.str "token"), ("repo_name", Value.str "demo")],
           HttpOutcome.response 201 "h" "https://github.com/u/demo.git",
           200, "", true, true⟩).1) ∧
    Event.gitPush
      ∉ (main_run ⟨"github_config.yml", none, false⟩
          ⟨FileResult.parsed [("github_token", Value.str "token"), ("repo_name", Value.str "demo")],
           HttpOutcome.response 201 "h" "https://github.com/u/demo.git",
           200, "", true, true⟩).1 :=
  no_gitignore_type_skips_seeding _ _
    [("github_token", Value.str "token"), ("repo_name", Value.str "demo")]
    (Value.str "token") (Value.str "demo") 201 "h" "https://github.com/u/demo.git"
    rfl (by decide) (by decide) (by decide) rfl (by decide) rfl
